import Mathlib

/-!
Verification of the core decision logic of the `ai-fashion-stylist-pro`
repository against its natural-language specification.

The embedding below translates, definition by definition, the Python code of
`src/services/stylist_service.py` (outfit scoring, ranking, shopping-query
composition), `src/wardrobe_intelligence.py` (wardrobe gap analysis and
balance scoring) and `src/models.py` (wardrobe statistics aggregation).
Strings stay strings, Python lists become Lean lists, Python dict lookups
with a default become total lookup functions, and Python's stable
`list.sort(key=..., reverse=True)` becomes a stable insertion sort proved
below to sort its output.  Display-only fields of gap records (`item_name`,
`reason`, `shopping_query`, `suggestions`, `colors_needed`) carry no
decision logic and are omitted from the `Gap` record; all fields that feed
the sort key, the truncation or the detectors are kept.
-/

/-! ## A stable insertion sort

Python's `list.sort` is stable; the code sorts scored outfits and gap
records descending by a key.  `insertSorted bef x l` inserts `x` in front of
the first element `h` with `bef x h = true`; with `bef x h` meaning
"`x`'s key is ≥ `h`'s key" this reproduces a stable descending sort. -/

def insertSorted (bef : α → α → Bool) (x : α) : List α → List α
  | [] => [x]
  | h :: t => if bef x h then x :: h :: t else h :: insertSorted bef x t

def sortStableDesc (bef : α → α → Bool) : List α → List α
  | [] => []
  | x :: xs => insertSorted bef x (sortStableDesc bef xs)

theorem mem_insertSorted (bef : α → α → Bool) (x : α) (l : List α) (y : α) :
    y ∈ insertSorted bef x l ↔ y = x ∨ y ∈ l := by
  induction l with
  | nil => simp [insertSorted]
  | cons h t ih =>
    simp only [insertSorted]
    split
    · simp [or_comm, or_assoc, or_left_comm]
    · simp [ih, or_comm, or_assoc, or_left_comm]

theorem pairwise_insertSorted (bef : α → α → Bool)
    (total : ∀ a b, bef a b = true ∨ bef b a = true)
    (tr : ∀ a b c, bef a b = true → bef b c = true → bef a c = true)
    (x : α) (l : List α)
    (hl : l.Pairwise (fun a b => bef a b = true)) :
    (insertSorted bef x l).Pairwise (fun a b => bef a b = true) := by
  induction l with
  | nil => simp [insertSorted]
  | cons h t ih =>
    simp only [insertSorted]
    rcases List.pairwise_cons.mp hl with ⟨hh, ht⟩
    split
    · rename_i hxh
      refine List.pairwise_cons.mpr ⟨?_, hl⟩
      intro b hb
      rcases List.mem_cons.mp hb with rfl | hb
      · exact hxh
      · exact tr x h b hxh (hh b hb)
    · rename_i hxh
      refine List.pairwise_cons.mpr ⟨?_, ih ht⟩
      intro b hb
      rcases (mem_insertSorted bef x t b).mp hb with rfl | hb
      · exact (total b h).resolve_left (by simpa using hxh)
      · exact hh b hb

theorem mem_sortStableDesc (bef : α → α → Bool) (l : List α) (y : α) :
    y ∈ sortStableDesc bef l ↔ y ∈ l := by
  induction l with
  | nil => simp [sortStableDesc]
  | cons h t ih =>
    simp [sortStableDesc, mem_insertSorted, ih]

theorem pairwise_sortStableDesc (bef : α → α → Bool)
    (total : ∀ a b, bef a b = true ∨ bef b a = true)
    (tr : ∀ a b c, bef a b = true → bef b c = true → bef a c = true)
    (l : List α) :
    (sortStableDesc bef l).Pairwise (fun a b => bef a b = true) := by
  induction l with
  | nil => simp [sortStableDesc]
  | cons h t ih => exact pairwise_insertSorted bef total tr h _ ih

/-! ## Outfit catalog records and the request context

From `src/services/stylist_service.py` (identical copies live in
`src/app.py`).  Catalog entries are Python dicts; only the keys read by the
scorer and ranker are modelled.  `outfit.get("occasion_subtype", [])` and
`outfit.get("body_type", [])` default to `[]`, which the list field already
expresses.  A missing/`None` occasion subtype in the request is passed as
`""` (Python treats `None` and `""` identically here: both are falsy and
both miss every table key). -/

structure Outfit where
  gender : String
  occasion : String
  occasion_subtype : List String
  climate : List String
  age_group : List String
  body_type : List String
  budget : String
deriving DecidableEq, Repr

/-- The score contributions after the gender gate, in source order:
occasion (+80), sub-occasion (+40), climate (+30), body type (+60),
budget (+40 exact / +20 acceptable upgrade).  Factored out of
`calculate_outfit_score` because Python accumulates them onto the
gender base with `score +=`. -/
def non_gender_score (o : Outfit)
    (occasion occasion_subtype climate body_type budget : String) : Nat :=
  (if o.occasion = occasion then 80 else 0)
  + (if occasion_subtype ≠ "" ∧ occasion_subtype ∈ o.occasion_subtype then 40 else 0)
  + (if climate ∈ o.climate then 30 else 0)
  + (if body_type ∈ o.body_type then 60 else 0)
  + (if o.budget = budget then 40
     else if (budget = "medium" ∧ o.budget = "low") ∨ budget = "high" then 20 else 0)

/-- `calculate_outfit_score` from `src/services/stylist_service.py`
(lines 64–97; byte-identical copy at `src/app.py` lines 1408–1441). -/
def calculate_outfit_score (o : Outfit)
    (clothing_style occasion occasion_subtype climate body_type budget : String) : Nat :=
  if o.gender = clothing_style then
    100 + non_gender_score o occasion occasion_subtype climate body_type budget
  else if o.gender = "unisex" then
    50 + non_gender_score o occasion occasion_subtype climate body_type budget
  else 0

/-- The scored-outfit accumulation loop of `rank_and_filter_outfits`:
skip outfits whose `age_group` excludes the request's, skip strictly
opposite-gender outfits, score the rest, keep strictly positive scores. -/
def scored_outfits (outfits : List Outfit)
    (occasion climate clothing_style age_group body_type budget occasion_subtype : String) :
    List (Nat × Outfit) :=
  outfits.filterMap (fun o =>
    if age_group ∉ o.age_group then none
    else if clothing_style = "mens" ∧ o.gender = "womens" then none
    else if clothing_style = "womens" ∧ o.gender = "mens" then none
    else
      let s := calculate_outfit_score o clothing_style occasion occasion_subtype climate body_type budget
      if s > 0 then some (s, o) else none)

/-- Comparison used by `scored_outfits.sort(key=lambda x: x[0], reverse=True)`:
`p` may precede `q` exactly when `p`'s score is ≥ `q`'s. -/
def scoreBef (p q : Nat × Outfit) : Bool := decide (q.1 ≤ p.1)

/-- `rank_and_filter_outfits` from `src/services/stylist_service.py`
(lines 99–118; copy at `src/app.py` lines 1443–1462).  The catalog is the
module-level outfit database, passed here as the `outfits` argument; the
truncation bound 3 is hardcoded in the source (`scored_outfits[:3]`). -/
def rank_and_filter_outfits (outfits : List Outfit)
    (occasion climate clothing_style age_group body_type budget occasion_subtype : String) :
    List Outfit :=
  ((sortStableDesc scoreBef
      (scored_outfits outfits occasion climate clothing_style age_group body_type budget occasion_subtype)).take 3).map
    (fun p => p.2)

/-! ## Shopping query composition

From `generate_shopping_links` in `src/services/stylist_service.py`
(lines 35–62).  `" ".join` is modelled by `joinSpace`; Python's
`str.strip()` (drop whitespace from both ends) is `pyStrip`.  The URL
templates around `quote_plus` carry no decision logic and the spec scopes
encoding out of the core, so the model returns the `(item, qualified_item)`
pairs. -/

def joinSpace : List String → String
  | [] => ""
  | [p] => p
  | p :: ps => p ++ " " ++ joinSpace ps

/-- Python `str.strip()`: remove leading and trailing whitespace. -/
def pyStrip (s : String) : String :=
  ⟨((s.data.dropWhile Char.isWhitespace).reverse.dropWhile Char.isWhitespace).reverse⟩

/-- `budget_hints.get(budget, "")`. -/
def budgetHintFor (budget : String) : String :=
  if budget = "low" then "under 1000"
  else if budget = "medium" then "under 2500"
  else if budget = "high" then "premium"
  else ""

/-- `occasion_contexts.get(occasion, {}).get(occasion_subtype, "")`. -/
def occasionContextFor (occasion occasion_subtype : String) : String :=
  if occasion = "casual" then
    if occasion_subtype = "college" then "college"
    else if occasion_subtype = "daily" then "daily wear"
    else if occasion_subtype = "travel" then "travel"
    else ""
  else if occasion = "formal" then
    if occasion_subtype = "office" then "office"
    else if occasion_subtype = "meeting" then "formal"
    else if occasion_subtype = "interview" then "interview"
    else ""
  else if occasion = "party" then
    if occasion_subtype = "night" then "party"
    else if occasion_subtype = "wedding" then "party wear"
    else if occasion_subtype = "festival" then "festive"
    else ""
  else if occasion = "ethnic" then
    if occasion_subtype = "traditional" then "traditional"
    else if occasion_subtype = "festive" then "festive"
    else ""
  else ""

/-- The `qualified_item` built for one item inside the loop of
`generate_shopping_links`.  The Python variable `gender_prefix` is named
`gender_part` here. -/
def shoppingQuery (item gender budget occasion occasion_subtype : String) : String :=
  let gender_part := if gender = "womens" then "women " else if gender = "mens" then "men " else ""
  let budget_hint := budgetHintFor budget
  let occasion_context :=
    if occasion_subtype ≠ "" then occasionContextFor occasion occasion_subtype else ""
  pyStrip (joinSpace (([gender_part, occasion_context, item, budget_hint]).filter
      (fun p => !(p == ""))))

/-- `generate_shopping_links` returns, per item, the item together with the
qualified search string (the URL templates around it are fixed text). -/
def generate_shopping_links (items : List String)
    (gender budget occasion occasion_subtype : String) : List (String × String) :=
  items.map (fun item => (item, shoppingQuery item gender budget occasion occasion_subtype))

/-- `true` when the character list contains two consecutive spaces. -/
def hasDoubleSpace : List Char → Bool
  | [] => false
  | [_] => false
  | a :: b :: t => (a = ' ' ∧ b = ' ') || hasDoubleSpace (b :: t)

/-! ## Wardrobe items and statistics

`WardrobeItem` documents (MongoDB, external persistence) as read by
`src/wardrobe_intelligence.py` and `src/models.py`.  `item.get('owned', True)`
is the `owned` flag; `get('category', 'other')`, `get('occasions', [])`,
`get('season', [])`, `get('colors', [])` are the remaining read keys. -/

structure WItem where
  category : String
  occasions : List String
  season : List String
  colors : List String
  owned : Bool
deriving DecidableEq, Repr

/-- `WardrobeItem.get_wardrobe_stats` output (`src/models.py` lines 353–388):
the per-key count dicts are modelled as total count functions (a Python
`dict.get(k, 0)` lookup equals the multiset count), `colors` is the set of
distinct colors, kept as a deduplicated list so membership and cardinality
agree with the Python `set`. -/
structure WardrobeStats where
  total_items : Nat
  owned_items : Nat
  by_category : String → Nat
  by_occasion : String → Nat
  by_season : String → Nat
  colors : List String

/-- `get_wardrobe_stats` from `src/models.py` (also `src/models/wardrobe.py`):
one pass over the wardrobe incrementing per-category, per-occasion and
per-season counters and collecting distinct colors. -/
def get_wardrobe_stats (wardrobe : List WItem) : WardrobeStats where
  total_items := wardrobe.length
  owned_items := (wardrobe.filter (fun i => i.owned)).length
  by_category := fun c => wardrobe.countP (fun i => i.category == c)
  by_occasion := fun o => (wardrobe.flatMap (fun i => i.occasions)).count o
  by_season := fun s => (wardrobe.flatMap (fun i => i.season)).count s
  colors := (wardrobe.flatMap (fun i => i.colors)).dedup

/-! ## Gap records and the four detectors

From `src/wardrobe_intelligence.py`.  A gap dict's decision-relevant keys:
`type`, `occasion` (occasion detector only), `category` (absent for color
and season gaps, modelled as `""`, matching `gap.get('category', '')`),
`season` (season detector only), `priority`, and the `outfits_unlocked`
value filled in by `analyze_wardrobe_gaps` (0 before that pass). -/

structure Gap where
  gtype : String
  occasion : String
  category : String
  season : String
  priority : String
  outfits_unlocked : Nat
deriving DecidableEq, Repr

/-- Python `s.rstrip('s')`: drop every trailing `'s'` character. -/
def rstripS (s : String) : String :=
  ⟨(s.data.reverse.dropWhile (fun c => c = 's')).reverse⟩

/-- The category keys of `WARDROBE_ESSENTIALS[occasion]`, in dict insertion
order; `[]` for occasions outside the table (the code `continue`s there). -/
def essentialCategories (occ : String) : List String :=
  if occ = "casual" then ["tops", "bottoms", "footwear", "outerwear"]
  else if occ = "formal" then ["tops", "bottoms", "footwear", "outerwear"]
  else if occ = "party" then ["tops", "bottoms", "footwear", "accessories"]
  else if occ = "ethnic" then ["tops", "bottoms", "footwear", "accessories"]
  else []

/-- `ESSENTIAL_COLORS['neutrals']`. -/
def essentialNeutrals : List String := ["Black", "White", "Grey", "Beige", "Navy"]

/-- The keys of `SEASON_ESSENTIALS`, in dict insertion order. -/
def seasonEssentialKeys : List String := ["winter", "summer", "spring", "fall"]

/-- The `important_occasions` list built at the top of
`_analyze_occasion_gaps` from the profile's lifestyle. -/
def importantOccasions (lifestyle : String) : List String :=
  (if lifestyle = "student" ∨ lifestyle = "mixed" then ["casual"] else [])
  ++ (if lifestyle = "office" ∨ lifestyle = "mixed" then ["formal", "casual"] else [])
  ++ (if lifestyle = "mixed" then ["party"] else [])

/-- `any(item.get('category') == category.rstrip('s') for item in occasion_items)`
where `occasion_items` keeps the owned items whose occasion list contains
`occ`. -/
def hasCat (owned : List WItem) (occ cat : String) : Bool :=
  (owned.filter (fun i => occ ∈ i.occasions)).any (fun i => i.category == rstripS cat)

/-- The gap dict built for a missing occasion/category pair. -/
def occGap (occ cat lifestyle : String) : Gap where
  gtype := "occasion_category"
  occasion := occ
  category := cat
  season := ""
  priority := if occ = "formal" ∧ lifestyle = "office" then "high" else "medium"
  outfits_unlocked := 0

/-- The inner loop body of `_analyze_occasion_gaps` for one occasion. -/
def gapsForOccasion (owned : List WItem) (lifestyle occ : String) : List Gap :=
  (essentialCategories occ).filterMap (fun cat =>
    if hasCat owned occ cat then none else some (occGap occ cat lifestyle))

/-- `_analyze_occasion_gaps` (`src/wardrobe_intelligence.py` lines 92–131).
The `stats` parameter of the Python function is unused there and omitted. -/
def analyzeOccasionGaps (owned : List WItem) (lifestyle : String) : List Gap :=
  (importantOccasions lifestyle).flatMap (gapsForOccasion owned lifestyle)

/-- `_analyze_color_gaps` (lines 133–155): one aggregate high-priority gap
when at least two essential neutrals are missing from the owned colors. -/
def analyzeColorGaps (stats : WardrobeStats) : List Gap :=
  let missingNeutrals := essentialNeutrals.filter (fun c => !(stats.colors.contains c))
  if 2 ≤ missingNeutrals.length then
    [{ gtype := "color_neutral", occasion := "", category := "", season := "",
       priority := "high", outfits_unlocked := 0 }]
  else []

/-- `_analyze_season_gaps` (lines 157–177): a medium gap for each season
with fewer than 2 items. -/
def analyzeSeasonGaps (stats : WardrobeStats) : List Gap :=
  seasonEssentialKeys.filterMap (fun season =>
    if stats.by_season season < 2 then
      some { gtype := "season", occasion := "", category := "", season := season,
             priority := "medium", outfits_unlocked := 0 }
    else none)

/-- `_analyze_category_gaps` (lines 179–223): high `category_missing` gaps
for empty essential categories, medium `category_low` gaps below 3 items,
plus a medium outerwear gap when no outerwear is owned. -/
def analyzeCategoryGaps (stats : WardrobeStats) : List Gap :=
  (["top", "bottom", "footwear"].flatMap (fun cat =>
    let count := stats.by_category cat
    if count = 0 then
      [{ gtype := "category_missing", occasion := "", category := cat, season := "",
         priority := "high", outfits_unlocked := 0 }]
    else if count < 3 then
      [{ gtype := "category_low", occasion := "", category := cat, season := "",
         priority := "medium", outfits_unlocked := 0 }]
    else []))
  ++ (if stats.by_category "outerwear" = 0 then
        [{ gtype := "category_missing", occasion := "", category := "outerwear", season := "",
           priority := "medium", outfits_unlocked := 0 }]
      else [])

/-- `_calculate_outfit_potential` (lines 225–255). -/
def calculate_outfit_potential (gap : Gap) (owned : List WItem) : Nat :=
  let gap_category := rstripS gap.category
  if gap_category = "" then 5
  else if gap_category = "top" then
    max ((owned.countP (fun i => i.category == "bottom"))
         * (owned.countP (fun i => i.category == "footwear"))) 5
  else if gap_category = "bottom" then
    max ((owned.countP (fun i => i.category == "top"))
         * (owned.countP (fun i => i.category == "footwear"))) 5
  else if gap_category = "footwear" then
    max ((owned.countP (fun i => i.category == "top"))
         * (owned.countP (fun i => i.category == "bottom"))) 5
  else if gap_category = "outerwear" then
    max ((owned.countP (fun i => i.category == "top")) * 2) 5
  else 5

/-- `_priority_score` (lines 288–291). -/
def priority_score (p : String) : Nat :=
  if p = "high" then 3 else if p = "medium" then 2 else if p = "low" then 1 else 1

/-- Comparison realizing `gaps.sort(key=lambda x: (-priority_score(..), -x['outfits_unlocked']))`:
`g` may precede `h` exactly when `g`'s `(priority, outfits_unlocked)` key is
lexicographically ≥ `h`'s. -/
def gapBef (g h : Gap) : Bool :=
  decide (priority_score h.priority < priority_score g.priority
    ∨ (priority_score g.priority = priority_score h.priority
       ∧ h.outfits_unlocked ≤ g.outfits_unlocked))

/-- `analyze_wardrobe_gaps` (`src/wardrobe_intelligence.py` lines 50–90).
The external Wardrobe Store calls are replaced by the wardrobe list itself:
`owned_items` filters it and `get_wardrobe_stats` aggregates it exactly as
`src/models.py` does.  The profile is represented by its `lifestyle` value
(`user_profile.get('lifestyle', 'mixed')` — a profile without the key
behaves as `"mixed"`). -/
def analyze_wardrobe_gaps (wardrobe : List WItem) (lifestyle : String) : List Gap :=
  let owned := wardrobe.filter (fun i => i.owned)
  let stats := get_wardrobe_stats wardrobe
  let gaps := analyzeOccasionGaps owned lifestyle ++ analyzeColorGaps stats
      ++ analyzeSeasonGaps stats ++ analyzeCategoryGaps stats
  let gaps := gaps.map (fun g => { g with outfits_unlocked := calculate_outfit_potential g owned })
  (sortStableDesc gapBef gaps).take 10

/-! ## Wardrobe balance scorer

From `calculate_wardrobe_balance` (`src/wardrobe_intelligence.py` lines
293–346).  Python float arithmetic on these small exact fractions is
modelled in `ℚ`; `round(x)` is `round : ℚ → ℤ` and `round(x, 1)` keeps one
decimal digit. -/

structure BalanceReport where
  overall_score : ℤ
  occasion_readiness : List (String × ℤ)
  category_balance : List (String × Nat × ℚ)
  season_coverage : List (String × ℤ)
  color_diversity : ℚ

/-- `min(100, (count / 3) * 100)` rounded, the readiness formula shared by
occasions and seasons. -/
def readinessScore (count : Nat) : ℤ :=
  round (min 100 ((count : ℚ) / 3 * 100))

/-- Python `round(x, 1)`. -/
def round1 (x : ℚ) : ℚ := (round (x * 10) : ℚ) / 10

/-- `calculate_wardrobe_balance`, as a pure function of the aggregate
statistics (the function's only read of the store). -/
def calculate_wardrobe_balance (stats : WardrobeStats) : BalanceReport :=
  let occasion_readiness := ["casual", "formal", "party", "ethnic"].map
    (fun occ => (occ, readinessScore (stats.by_occasion occ)))
  let category_balance := ["top", "bottom", "footwear", "outerwear", "accessory"].map
    (fun cat =>
      let count := stats.by_category cat
      let percentage : ℚ :=
        if 0 < stats.total_items then round1 ((count : ℚ) / (stats.total_items : ℚ) * 100) else 0
      (cat, count, percentage))
  let season_coverage := ["spring", "summer", "fall", "winter"].map
    (fun season => (season, readinessScore (stats.by_season season)))
  let color_diversity : ℚ := min 100 ((stats.colors.length : ℚ) / 8 * 100)
  let all_scores : List ℚ :=
    occasion_readiness.map (fun p => ((p.2 : ℚ)))
    ++ season_coverage.map (fun p => ((p.2 : ℚ)))
    ++ [color_diversity]
  { overall_score := if all_scores ≠ [] then round (all_scores.sum / (all_scores.length : ℚ)) else 0
    occasion_readiness := occasion_readiness
    category_balance := category_balance
    season_coverage := season_coverage
    color_diversity := color_diversity }

/-! ## Theorems about the Outfit Scorer -/

/-- C1: for every outfit and request context, if the outfit's gender is
neither the requested clothing style nor `"unisex"` the score is 0; a
gender equal to the requested style contributes +100 to the score, and
`"unisex"` (when different from the requested style) contributes +50. -/
theorem score_gender_gate (o : Outfit)
    (clothing_style occasion occasion_subtype climate body_type budget : String) :
    (o.gender ≠ clothing_style → o.gender ≠ "unisex" →
      calculate_outfit_score o clothing_style occasion occasion_subtype climate body_type budget = 0)
    ∧ (o.gender = clothing_style →
      calculate_outfit_score o clothing_style occasion occasion_subtype climate body_type budget
        = 100 + non_gender_score o occasion occasion_subtype climate body_type budget)
    ∧ (o.gender = "unisex" → o.gender ≠ clothing_style →
      calculate_outfit_score o clothing_style occasion occasion_subtype climate body_type budget
        = 50 + non_gender_score o occasion occasion_subtype climate body_type budget) := by
  refine ⟨fun h1 h2 => ?_, fun h1 => ?_, fun h1 h2 => ?_⟩
  · simp [calculate_outfit_score, h1, h2]
  · simp [calculate_outfit_score, h1]
  · rw [h1] at h2
    simp [calculate_outfit_score, h1, h2]

/-- Witness for `score_gender_gate`: a mens outfit requested as womens is
scored 0. -/
theorem score_gender_gate_witness :
    calculate_outfit_score ⟨"mens", "casual", [], ["hot"], ["young"], ["slim"], "low"⟩
      "womens" "casual" "" "hot" "slim" "low" = 0 :=
  (score_gender_gate ⟨"mens", "casual", [], ["hot"], ["young"], ["slim"], "low"⟩
      "womens" "casual" "" "hot" "slim" "low").1 (by decide) (by decide)

/-- C4: the fully matching mens/formal/moderate/regular/high example scores
exactly 310 = 100 + 80 + 0 + 30 + 60 + 40 under the enhanced weights. -/
theorem score_enhanced_example_310 :
    calculate_outfit_score
      ⟨"mens", "formal", [], ["moderate"], ["adult"], ["regular"], "high"⟩
      "mens" "formal" "" "moderate" "regular" "high" = 310 := by decide

/-! ## Theorems about the shopping query builder -/

/-- Counterexample for C6: with gender `"womens"` the query for item
`"shirt"` at medium budget is `"women  shirt under 2500"`, which contains
two consecutive spaces (the trailing space of `"women "` plus the join
separator). -/
theorem shopping_query_double_space_cex :
    shoppingQuery "shirt" "womens" "medium" "casual" "" = "women  shirt under 2500"
    ∧ hasDoubleSpace (shoppingQuery "shirt" "womens" "medium" "casual" "").data = true := by
  constructor <;> decide

/-- Modelled from the claim's wording, for comparison with the code's
`shoppingQuery`: compose, in order, the gender part, the occasion-context
phrase, the raw item name and the budget hint, joining the non-empty parts
with single spaces, and strip the result. -/
def joinNonempty : List String → String
  | [] => ""
  | p :: ps =>
    if p = "" then joinNonempty ps
    else if ps.any (fun q => !(q == "")) then p ++ " " ++ joinNonempty ps
    else p

/-- Modelled from the claim's wording (see `joinNonempty`). -/
def claimShoppingQuery (item gender budget occasion occasion_subtype : String) : String :=
  let gender_part := if gender = "womens" then "women " else if gender = "mens" then "men " else ""
  let occasion_context :=
    if occasion_subtype ≠ "" then occasionContextFor occasion occasion_subtype else ""
  pyStrip (joinNonempty [gender_part, occasion_context, item, budgetHintFor budget])

theorem joinSpace_cons_cons (p q : String) (t : List String) :
    joinSpace (p :: q :: t) = p ++ " " ++ joinSpace (q :: t) := rfl

theorem joinSpace_filter_eq_joinNonempty (ps : List String) :
    joinSpace (ps.filter (fun p => !(p == ""))) = joinNonempty ps := by
  induction ps with
  | nil => rfl
  | cons p ps ih =>
    by_cases hp : p = ""
    · simp [joinNonempty, hp, ← ih]
    · rw [joinNonempty]
      by_cases hany : ps.any (fun q => !(q == "")) = true
      · have hne : ps.filter (fun p => !(p == "")) ≠ [] := by
          rcases List.any_eq_true.mp hany with ⟨q, hq, hq'⟩
          exact List.ne_nil_of_mem (List.mem_filter.mpr ⟨hq, hq'⟩)
        rw [List.filter_cons_of_pos (by simpa using hp)]
        rcases hl : ps.filter (fun p => !(p == "")) with _ | ⟨q, t⟩
        · exact absurd hl hne
        · rw [joinSpace_cons_cons, ← hl, ih, if_neg hp, if_pos hany]
      · have hall : ∀ q ∈ ps, q = "" := by simpa using hany
        have hnil : ps.filter (fun p => !(p == "")) = [] := by
          rw [List.filter_eq_nil_iff]
          intro q hq
          simp [hall q hq]
        rw [List.filter_cons_of_pos (by simpa using hp), hnil, joinSpace,
          if_neg hp, if_neg hany]

/-- C6 amended: the query string equals the claimed composition (gender
part, occasion-context phrase, raw item name, budget hint, non-empty parts
joined by single spaces, stripped) — but since the gender part itself ends
in a space, queries for mens/womens contain two consecutive spaces before
the following non-empty part, so the claim's "never two consecutive
spaces" clause is dropped (see `shopping_query_double_space_cex`). -/
theorem shopping_query_composition (item gender budget occasion occasion_subtype : String) :
    shoppingQuery item gender budget occasion occasion_subtype
      = claimShoppingQuery item gender budget occasion occasion_subtype := by
  simp only [shoppingQuery, claimShoppingQuery, joinSpace_filter_eq_joinNonempty]

/-! ## Theorems about outfit-potential estimation -/

/-- Every branch of `_calculate_outfit_potential` floors its result at 5. -/
theorem five_le_potential (gap : Gap) (owned : List WItem) :
    5 ≤ calculate_outfit_potential gap owned := by
  simp only [calculate_outfit_potential]
  split_ifs <;> omega

/-- C7: a gap whose (singularized) category is top / bottom / footwear /
outerwear gets the complementary-category product floored at 5; a gap
naming no category gets exactly 5; every gap's estimate is at least 5. -/
theorem outfit_potential_spec (gap : Gap) (owned : List WItem) :
    (rstripS gap.category = "top" → calculate_outfit_potential gap owned
      = max ((owned.countP (fun i => i.category == "bottom"))
             * (owned.countP (fun i => i.category == "footwear"))) 5)
    ∧ (rstripS gap.category = "bottom" → calculate_outfit_potential gap owned
      = max ((owned.countP (fun i => i.category == "top"))
             * (owned.countP (fun i => i.category == "footwear"))) 5)
    ∧ (rstripS gap.category = "footwear" → calculate_outfit_potential gap owned
      = max ((owned.countP (fun i => i.category == "top"))
             * (owned.countP (fun i => i.category == "bottom"))) 5)
    ∧ (rstripS gap.category = "outerwear" → calculate_outfit_potential gap owned
      = max ((owned.countP (fun i => i.category == "top")) * 2) 5)
    ∧ (gap.category = "" → calculate_outfit_potential gap owned = 5)
    ∧ 5 ≤ calculate_outfit_potential gap owned := by
  refine ⟨fun h => ?_, fun h => ?_, fun h => ?_, fun h => ?_, fun h => ?_,
    five_le_potential gap owned⟩
  · simp [calculate_outfit_potential, h]
  · simp [calculate_outfit_potential, h]
  · simp [calculate_outfit_potential, h]
  · simp [calculate_outfit_potential, h]
  · have h' : rstripS gap.category = "" := by rw [h]; decide
    simp [calculate_outfit_potential, h']

/-- Witness for `outfit_potential_spec`: an occasion gap for `"tops"` over
an empty wardrobe is floored to `max (0 * 0) 5`. -/
theorem outfit_potential_spec_witness :
    calculate_outfit_potential
      { gtype := "occasion_category", occasion := "casual", category := "tops",
        season := "", priority := "medium", outfits_unlocked := 0 } [] = max (0 * 0) 5 :=
  (outfit_potential_spec _ []).1 (by decide)

/-! ## Theorems about the Outfit Ranker -/

/-- Anything the accumulation loop keeps came from the catalog, carries its
own score, scored strictly positive, and passed both hard pre-filters. -/
theorem mem_scored_outfits {outfits : List Outfit}
    {occasion climate clothing_style age_group body_type budget occasion_subtype : String}
    {p : Nat × Outfit}
    (hp : p ∈ scored_outfits outfits occasion climate clothing_style age_group body_type budget occasion_subtype) :
    p.2 ∈ outfits
    ∧ p.1 = calculate_outfit_score p.2 clothing_style occasion occasion_subtype climate body_type budget
    ∧ 0 < p.1
    ∧ age_group ∈ p.2.age_group
    ∧ ¬(clothing_style = "mens" ∧ p.2.gender = "womens")
    ∧ ¬(clothing_style = "womens" ∧ p.2.gender = "mens") := by
  rcases List.mem_filterMap.mp hp with ⟨o, ho, hfo⟩
  simp only at hfo
  split_ifs at hfo with h1 h2 h3 h4
  all_goals cases hfo
  exact ⟨ho, rfl, h4, by simpa using h1, h2, h3⟩

/-- Every element of the ranked output arises from a kept scored pair. -/
theorem mem_rank_and_filter {outfits : List Outfit}
    {occasion climate clothing_style age_group body_type budget occasion_subtype : String}
    {o : Outfit}
    (ho : o ∈ rank_and_filter_outfits outfits occasion climate clothing_style age_group body_type budget occasion_subtype) :
    ∃ p ∈ scored_outfits outfits occasion climate clothing_style age_group body_type budget occasion_subtype,
      p.2 = o := by
  rcases List.mem_map.mp ho with ⟨p, hp, hpo⟩
  have hp' := List.mem_of_mem_take hp
  exact ⟨p, (mem_sortStableDesc scoreBef _ p).mp hp', hpo⟩

/-- C3: the ranker returns at most 3 outfits (the hardcoded `top_n`), in
non-increasing score order, and every returned outfit scores strictly
positive; an empty output is an ordinary value of the function. -/
theorem rank_top3_sorted_positive (outfits : List Outfit)
    (occasion climate clothing_style age_group body_type budget occasion_subtype : String) :
    (rank_and_filter_outfits outfits occasion climate clothing_style age_group body_type budget occasion_subtype).length ≤ 3
    ∧ (rank_and_filter_outfits outfits occasion climate clothing_style age_group body_type budget occasion_subtype).Pairwise
        (fun o1 o2 =>
          calculate_outfit_score o2 clothing_style occasion occasion_subtype climate body_type budget
            ≤ calculate_outfit_score o1 clothing_style occasion occasion_subtype climate body_type budget)
    ∧ ∀ o ∈ rank_and_filter_outfits outfits occasion climate clothing_style age_group body_type budget occasion_subtype,
        0 < calculate_outfit_score o clothing_style occasion occasion_subtype climate body_type budget := by
  refine ⟨?_, ?_, ?_⟩
  · simp only [rank_and_filter_outfits, List.length_map]
    exact List.length_take_le 3 (sortStableDesc scoreBef (scored_outfits outfits occasion climate clothing_style age_group body_type budget occasion_subtype))
  · have htotal : ∀ p q : Nat × Outfit, scoreBef p q = true ∨ scoreBef q p = true := by
      intro p q
      simp only [scoreBef, decide_eq_true_eq]
      exact Nat.le_total q.1 p.1
    have htr : ∀ p q r : Nat × Outfit,
        scoreBef p q = true → scoreBef q r = true → scoreBef p r = true := by
      intro p q r hpq hqr
      simp only [scoreBef, decide_eq_true_eq] at *
      exact le_trans hqr hpq
    have hsorted := pairwise_sortStableDesc scoreBef htotal htr
      (scored_outfits outfits occasion climate clothing_style age_group body_type budget occasion_subtype)
    have htake := hsorted.sublist (List.take_sublist 3 _)
    rw [rank_and_filter_outfits, List.pairwise_map]
    refine htake.imp_of_mem ?_
    intro p q hp hq hpq
    have hp' := mem_scored_outfits
      ((mem_sortStableDesc scoreBef _ p).mp (List.mem_of_mem_take hp))
    have hq' := mem_scored_outfits
      ((mem_sortStableDesc scoreBef _ q).mp (List.mem_of_mem_take hq))
    have := hpq
    simp only [scoreBef, decide_eq_true_eq] at this
    rw [← hp'.2.1, ← hq'.2.1]
    exact this
  · intro o ho
    rcases mem_rank_and_filter ho with ⟨p, hp, rfl⟩
    have h := mem_scored_outfits hp
    rw [← h.2.1]
    exact h.2.2.1

/-- Witness for `rank_top3_sorted_positive` on a one-outfit catalog. -/
theorem rank_top3_sorted_positive_witness :
    (rank_and_filter_outfits
        [⟨"mens", "formal", [], ["moderate"], ["adult"], ["regular"], "high"⟩]
        "formal" "moderate" "mens" "adult" "regular" "high" "").length ≤ 3
    ∧ (rank_and_filter_outfits
        [⟨"mens", "formal", [], ["moderate"], ["adult"], ["regular"], "high"⟩]
        "formal" "moderate" "mens" "adult" "regular" "high" "").Pairwise
        (fun o1 o2 => calculate_outfit_score o2 "mens" "formal" "" "moderate" "regular" "high"
          ≤ calculate_outfit_score o1 "mens" "formal" "" "moderate" "regular" "high")
    ∧ ∀ o ∈ rank_and_filter_outfits
        [⟨"mens", "formal", [], ["moderate"], ["adult"], ["regular"], "high"⟩]
        "formal" "moderate" "mens" "adult" "regular" "high" "",
        0 < calculate_outfit_score o "mens" "formal" "" "moderate" "regular" "high" :=
  rank_top3_sorted_positive
    [⟨"mens", "formal", [], ["moderate"], ["adult"], ["regular"], "high"⟩]
    "formal" "moderate" "mens" "adult" "regular" "high" ""

/-- C9: no returned outfit excludes the requested age group, and no outfit
of the strictly opposite gender is returned, independently of the scorer's
gender gate. -/
theorem rank_hard_prefilter (outfits : List Outfit)
    (occasion climate clothing_style age_group body_type budget occasion_subtype : String)
    (o : Outfit)
    (ho : o ∈ rank_and_filter_outfits outfits occasion climate clothing_style age_group body_type budget occasion_subtype) :
    age_group ∈ o.age_group
    ∧ ¬(clothing_style = "mens" ∧ o.gender = "womens")
    ∧ ¬(clothing_style = "womens" ∧ o.gender = "mens") := by
  rcases mem_rank_and_filter ho with ⟨p, hp, rfl⟩
  have h := mem_scored_outfits hp
  exact ⟨h.2.2.2.1, h.2.2.2.2.1, h.2.2.2.2.2⟩

/-- Witness for `rank_hard_prefilter`: the single matching outfit of the
310-score example is returned and satisfies the pre-filter facts. -/
theorem rank_hard_prefilter_witness :
    "adult" ∈ (⟨"mens", "formal", [], ["moderate"], ["adult"], ["regular"], "high"⟩ : Outfit).age_group
    ∧ ¬("mens" = "mens" ∧ (⟨"mens", "formal", [], ["moderate"], ["adult"], ["regular"], "high"⟩ : Outfit).gender = "womens")
    ∧ ¬("mens" = "womens" ∧ (⟨"mens", "formal", [], ["moderate"], ["adult"], ["regular"], "high"⟩ : Outfit).gender = "mens") :=
  rank_hard_prefilter
    [⟨"mens", "formal", [], ["moderate"], ["adult"], ["regular"], "high"⟩]
    "formal" "moderate" "mens" "adult" "regular" "high" ""
    ⟨"mens", "formal", [], ["moderate"], ["adult"], ["regular"], "high"⟩
    (by decide)

/-! ## Theorems about the occasion-category detector -/

theorem occGap_inj {occ cat occ' cat' L : String} :
    occGap occ cat L = occGap occ' cat' L ↔ occ = occ' ∧ cat = cat' := by
  constructor
  · intro h
    exact ⟨congrArg Gap.occasion h, congrArg Gap.category h⟩
  · rintro ⟨rfl, rfl⟩
    rfl

/-- `hasCat` unfolded to the claim's phrasing. -/
theorem hasCat_iff (owned : List WItem) (occ cat : String) :
    hasCat owned occ cat = true
      ↔ ∃ i ∈ owned, i.category = rstripS cat ∧ occ ∈ i.occasions := by
  simp only [hasCat, List.any_eq_true, List.mem_filter, decide_eq_true_eq,
    beq_iff_eq]
  constructor
  · rintro ⟨i, ⟨hi, hocc⟩, hcat⟩
    exact ⟨i, hi, hcat, hocc⟩
  · rintro ⟨i, hi, hcat, hocc⟩
    exact ⟨i, ⟨hi, hocc⟩, hcat⟩

/-- Occurrences of a fixed gap record in the per-occasion block. -/
theorem countP_gapsForOccasion (owned : List WItem) (L occ cat : String) :
    (gapsForOccasion owned L occ).countP (fun g => decide (g = occGap occ cat L))
      = if hasCat owned occ cat then 0 else (essentialCategories occ).count cat := by
  unfold gapsForOccasion
  induction essentialCategories occ with
  | nil => simp
  | cons c cs ih =>
    rw [List.filterMap_cons]
    by_cases hc : hasCat owned occ c
    · rw [if_pos hc, ih]
      by_cases hcc : c = cat
      · subst hcc
        simp [hc]
      · simp [List.count_cons, hcc, Ne.symm hcc]
    · rw [if_neg hc, List.countP_cons]
      by_cases hcc : c = cat
      · subst hcc
        simp [ih, hc, List.count_cons]
      · have hne : ¬(occGap occ c L = occGap occ cat L) := fun h => hcc (occGap_inj.mp h).2
        simp [ih, hne, List.count_cons, hcc, Ne.symm hcc]

/-- A block for a different occasion contributes no occurrence. -/
theorem countP_gapsForOccasion_ne (owned : List WItem) (L occ occ' cat : String)
    (h : occ' ≠ occ) :
    (gapsForOccasion owned L occ').countP (fun g => decide (g = occGap occ cat L)) = 0 := by
  rw [List.countP_eq_zero]
  intro g hg
  rcases List.mem_filterMap.mp hg with ⟨c, hc, hfo⟩
  split_ifs at hfo
  cases hfo
  simp only [decide_eq_true_eq]
  exact fun hEq => h (occGap_inj.mp hEq).1

/-- Occurrences of a fixed gap record across a list of occasion blocks. -/
theorem countP_flatMap_gapsForOccasion (owned : List WItem) (L occ cat : String)
    (occs : List String) :
    ((occs.flatMap (gapsForOccasion owned L)).countP (fun g => decide (g = occGap occ cat L)))
      = occs.count occ *
        (if hasCat owned occ cat then 0 else (essentialCategories occ).count cat) := by
  induction occs with
  | nil => simp
  | cons o os ih =>
    rw [List.flatMap_cons, List.countP_append, ih]
    by_cases ho : o = occ
    · subst ho
      rw [countP_gapsForOccasion, List.count_cons_self]
      ring
    · rw [countP_gapsForOccasion_ne owned L occ o cat ho, List.count_cons_of_ne (Ne.symm ho)]
      ring

/-- Every record the occasion detector emits is an `occGap` for a relevant
occasion and one of its essential categories. -/
theorem mem_analyzeOccasionGaps {owned : List WItem} {lifestyle : String} {g : Gap}
    (hg : g ∈ analyzeOccasionGaps owned lifestyle) :
    ∃ occ ∈ importantOccasions lifestyle, ∃ cat ∈ essentialCategories occ,
      g = occGap occ cat lifestyle := by
  rcases List.mem_flatMap.mp hg with ⟨occ, hocc, hg'⟩
  rcases List.mem_filterMap.mp hg' with ⟨cat, hcat, hfo⟩
  split_ifs at hfo
  cases hfo
  exact ⟨occ, hocc, cat, hcat, rfl⟩

/-- C5: for each occasion relevant to the lifestyle and each essential
category of the fixed table, the detector emits the corresponding gap
record exactly when the user owns no item of that (singularized) category
whose occasion set includes that occasion; every emitted gap for that
occasion/category carries priority `"high"` exactly for formal+office and
`"medium"` otherwise. -/
theorem occasion_gap_iff_missing (owned : List WItem) (lifestyle occ cat : String)
    (hocc : occ ∈ importantOccasions lifestyle) (hcat : cat ∈ essentialCategories occ) :
    ((occGap occ cat lifestyle ∈ analyzeOccasionGaps owned lifestyle)
      ↔ ¬ ∃ i ∈ owned, i.category = rstripS cat ∧ occ ∈ i.occasions)
    ∧ ∀ g ∈ analyzeOccasionGaps owned lifestyle, g.occasion = occ → g.category = cat →
        g.priority = (if occ = "formal" ∧ lifestyle = "office" then "high" else "medium") := by
  constructor
  · have hmem : (occGap occ cat lifestyle ∈ analyzeOccasionGaps owned lifestyle)
        ↔ 0 < (analyzeOccasionGaps owned lifestyle).countP
            (fun g => decide (g = occGap occ cat lifestyle)) := by
      rw [List.countP_pos_iff]
      constructor
      · intro h
        exact ⟨_, h, by simp⟩
      · rintro ⟨g, hg, hg'⟩
        simp only [decide_eq_true_eq] at hg'
        exact hg' ▸ hg
    rw [hmem, analyzeOccasionGaps, countP_flatMap_gapsForOccasion, ← hasCat_iff]
    have hcount : 0 < (importantOccasions lifestyle).count occ := List.count_pos_iff.mpr hocc
    have hcatcount : 0 < (essentialCategories occ).count cat := List.count_pos_iff.mpr hcat
    constructor
    · intro h hc
      rw [if_pos hc] at h
      simp at h
    · intro h
      rw [if_neg h]
      exact Nat.mul_pos hcount hcatcount
  · intro g hg hgo hgc
    rcases mem_analyzeOccasionGaps hg with ⟨occ', _, cat', _, rfl⟩
    have h1 : occ' = occ := hgo
    have h2 : cat' = cat := hgc
    subst h1
    subst h2
    rfl

/-- Witness for `occasion_gap_iff_missing`: empty wardrobe, office
lifestyle, formal tops — the gap is emitted with priority high. -/
theorem occasion_gap_iff_missing_witness :
    ((occGap "formal" "tops" "office" ∈ analyzeOccasionGaps [] "office")
      ↔ ¬ ∃ i ∈ ([] : List WItem), i.category = rstripS "tops" ∧ "formal" ∈ i.occasions)
    ∧ ∀ g ∈ analyzeOccasionGaps [] "office", g.occasion = "formal" → g.category = "tops" →
        g.priority = (if "formal" = "formal" ∧ "office" = "office" then "high" else "medium") :=
  occasion_gap_iff_missing [] "office" "formal" "tops" (by decide) (by decide)

/-- C10: with lifestyle `"mixed"` the important-occasions list contains
`"casual"` twice, so each missing casual essential category yields exactly
two (identical) gap records in the occasion detector's output. -/
theorem casual_processed_twice_mixed (owned : List WItem) (cat : String)
    (hcat : cat ∈ essentialCategories "casual")
    (hmiss : ¬ ∃ i ∈ owned, i.category = rstripS cat ∧ "casual" ∈ i.occasions) :
    (importantOccasions "mixed").count "casual" = 2
    ∧ (analyzeOccasionGaps owned "mixed").countP
        (fun g => decide (g = occGap "casual" cat "mixed")) = 2 := by
  refine ⟨by decide, ?_⟩
  have hc : ¬(hasCat owned "casual" cat = true) :=
    fun h => hmiss ((hasCat_iff owned "casual" cat).mp h)
  rw [analyzeOccasionGaps, countP_flatMap_gapsForOccasion, if_neg hc]
  have h2 : (importantOccasions "mixed").count "casual" = 2 := by decide
  rw [h2]
  simp only [essentialCategories] at hcat ⊢
  fin_cases hcat <;> decide

/-- Witness for `casual_processed_twice_mixed`: empty wardrobe, category
`"tops"`. -/
theorem casual_processed_twice_mixed_witness :
    (importantOccasions "mixed").count "casual" = 2
    ∧ (analyzeOccasionGaps [] "mixed").countP
        (fun g => decide (g = occGap "casual" "tops" "mixed")) = 2 :=
  casual_processed_twice_mixed [] "tops" (by decide) (by simp)

/-! ## Theorems about the full gap analysis -/

/-- Counterexample for C2: a wardrobe with zero (owned) items under the
default lifestyle `"mixed"` yields a full top-10 gap list containing no
gap of the season detector — truncation to 10 drops every season gap, so
the returned list does not cover all four detector types. -/
theorem gap_empty_wardrobe_mixed_cex :
    (analyze_wardrobe_gaps [] "mixed").length = 10
    ∧ (analyze_wardrobe_gaps [] "mixed").all (fun g => !(g.gtype == "season")) = true := by
  constructor <;> decide

/-- C2 amended: on any wardrobe every returned gap has
`outfits_unlocked ≥ 5`; on an empty wardrobe the returned list covers all
four detector types for lifestyle `"student"` (for `"mixed"` or
`"office"` the top-10 truncation drops the season gaps, see
`gap_empty_wardrobe_mixed_cex`). -/
theorem gap_empty_wardrobe_amended :
    (∀ (wardrobe : List WItem) (lifestyle : String),
      ∀ g ∈ analyze_wardrobe_gaps wardrobe lifestyle, 5 ≤ g.outfits_unlocked)
    ∧ ((analyze_wardrobe_gaps [] "student").any (fun g => g.gtype == "occasion_category") = true
       ∧ (analyze_wardrobe_gaps [] "student").any (fun g => g.gtype == "color_neutral") = true
       ∧ (analyze_wardrobe_gaps [] "student").any (fun g => g.gtype == "season") = true
       ∧ (analyze_wardrobe_gaps [] "student").any (fun g => g.gtype == "category_missing") = true) := by
  constructor
  · intro wardrobe lifestyle g hg
    simp only [analyze_wardrobe_gaps] at hg
    have hg1 := List.mem_of_mem_take hg
    have hg2 := (mem_sortStableDesc gapBef _ g).mp hg1
    rcases List.mem_map.mp hg2 with ⟨g', _, rfl⟩
    simpa using five_le_potential g' _
  · exact ⟨by decide, by decide, by decide, by decide⟩

/-- Witness for `gap_empty_wardrobe_amended`: the color gap returned for an
empty student wardrobe has `outfits_unlocked ≥ 5`. -/
theorem gap_empty_wardrobe_amended_witness :
    5 ≤ (Gap.mk "color_neutral" "" "" "" "high" 5).outfits_unlocked :=
  gap_empty_wardrobe_amended.1 [] "student"
    (Gap.mk "color_neutral" "" "" "" "high" 5) (by decide)

/-! ## Theorems about the wardrobe balance scorer -/

theorem round_bounds {x : ℚ} (h0 : 0 ≤ x) (h1 : x ≤ 100) :
    0 ≤ round x ∧ round x ≤ 100 := by
  rw [round_eq]
  constructor
  · have h2 : (0:ℤ) = ⌊(0:ℚ)⌋ := by simp
    rw [h2]
    exact Int.floor_le_floor (by linarith)
  · have h2 : ⌊x + 1/2⌋ ≤ ⌊(100:ℚ) + 1/2⌋ := Int.floor_le_floor (by linarith)
    have h3 : ⌊(100:ℚ) + 1/2⌋ = 100 := by norm_num
    omega

theorem readinessScore_bounds (n : Nat) :
    0 ≤ readinessScore n ∧ readinessScore n ≤ 100 :=
  round_bounds (le_min (by norm_num) (by positivity)) (min_le_left _ _)

theorem round_avg_bounds (l : List ℚ) (hne : l ≠ [])
    (hb : ∀ x ∈ l, 0 ≤ x ∧ x ≤ 100) :
    0 ≤ round (l.sum / (l.length : ℚ)) ∧ round (l.sum / (l.length : ℚ)) ≤ 100 := by
  have hlen : (0:ℚ) < (l.length : ℚ) := by
    exact_mod_cast List.length_pos.mpr hne
  have hsum0 : 0 ≤ l.sum := List.sum_nonneg (fun x hx => (hb x hx).1)
  have hsum1 : l.sum ≤ (l.length : ℚ) * 100 := by
    have := List.sum_le_card_nsmul l 100 (fun x hx => (hb x hx).2)
    simpa [nsmul_eq_mul] using this
  refine round_bounds (div_nonneg hsum0 (le_of_lt hlen)) ?_
  rw [div_le_iff₀ hlen]
  linarith

/-- C8: when the statistics report zero total items, every canonical
category's percentage is the guarded 0 (no division is attempted) and the
overall score lies between 0 and 100. -/
theorem balance_zero_total (stats : WardrobeStats) (h : stats.total_items = 0) :
    (∀ e ∈ (calculate_wardrobe_balance stats).category_balance, e.2.2 = 0)
    ∧ (calculate_wardrobe_balance stats).category_balance.map (fun e => e.1)
        = ["top", "bottom", "footwear", "outerwear", "accessory"]
    ∧ 0 ≤ (calculate_wardrobe_balance stats).overall_score
    ∧ (calculate_wardrobe_balance stats).overall_score ≤ 100 := by
  have hover : 0 ≤ (calculate_wardrobe_balance stats).overall_score
      ∧ (calculate_wardrobe_balance stats).overall_score ≤ 100 := by
    simp only [calculate_wardrobe_balance]
    rw [if_pos (by simp)]
    apply round_avg_bounds
    · simp
    · intro x hx
      rcases List.mem_append.mp hx with hx | hx
      · rcases List.mem_append.mp hx with hx | hx
        · rcases List.mem_map.mp hx with ⟨p, hp, rfl⟩
          rcases List.mem_map.mp hp with ⟨occ, _, rfl⟩
          have hb := readinessScore_bounds (stats.by_occasion occ)
          constructor
          · exact_mod_cast hb.1
          · exact_mod_cast hb.2
        · rcases List.mem_map.mp hx with ⟨p, hp, rfl⟩
          rcases List.mem_map.mp hp with ⟨season, _, rfl⟩
          have hb := readinessScore_bounds (stats.by_season season)
          constructor
          · exact_mod_cast hb.1
          · exact_mod_cast hb.2
      · rcases List.mem_singleton.mp hx with rfl
        exact ⟨le_min (by norm_num) (by positivity), min_le_left _ _⟩
  refine ⟨?_, ?_, hover.1, hover.2⟩
  · intro e he
    simp only [calculate_wardrobe_balance, List.mem_map] at he
    rcases he with ⟨cat, _, rfl⟩
    simp [h]
  · simp [calculate_wardrobe_balance]

/-- Witness for `balance_zero_total`: the statistics of an empty wardrobe. -/
theorem balance_zero_total_witness :
    (∀ e ∈ (calculate_wardrobe_balance (get_wardrobe_stats [])).category_balance, e.2.2 = 0)
    ∧ (calculate_wardrobe_balance (get_wardrobe_stats [])).category_balance.map (fun e => e.1)
        = ["top", "bottom", "footwear", "outerwear", "accessory"]
    ∧ 0 ≤ (calculate_wardrobe_balance (get_wardrobe_stats [])).overall_score
    ∧ (calculate_wardrobe_balance (get_wardrobe_stats [])).overall_score ≤ 100 :=
  balance_zero_total (get_wardrobe_stats []) rfl
